import Mathlib

/-!
Verification of the recycler-marketplace ranking engine, the OSM routing
adapter and the dual-tier RAG retrieval layer of the backend.

Embedding conventions:
* Python floats are modelled as rationals where the code is pure arithmetic
  (scoring), and as reals where the code uses transcendental functions
  (haversine routing).
* Mongo documents are modelled as structures whose optional keys are
  `Option` fields; `dict.get(k, d)` becomes `Option.getD`.
* External calls (Mongo queries, the OSRM HTTP call) are parameters of the
  embedded functions: a value describes the observed behaviour of the
  dependency, including its failure modes.
-/

/- ======================= configuration (config.py) ======================= -/

/-- The fixed material to rate table from `app/config.py`
(`settings.MATERIAL_RATES`). -/
def MATERIAL_RATES : List (String × ℚ) :=
  [("PET", 12), ("HDPE", 10), ("Paper", 5), ("Glass", 4), ("Metal", 15),
   ("E-Waste", 20), ("Cardboard", 6), ("Aluminum", 18), ("Steel", 8),
   ("Plastic", 7)]

/-- The expression `settings.MATERIAL_RATES.get(material, 5.0)` used by
`_score_recycler`. -/
def materialBaseRate (material : String) : ℚ :=
  (((MATERIAL_RATES.find? (fun p => p.1 == material)).map Prod.snd).getD 5)

/- ==================== data model (marketplace documents) ================= -/

/-- One entry of the structured shape of the `materials_accepted` key: a
record such as `{"material": "PET", "accepts": true, "rate_per_kg": 12}`.
Keys read with `dict.get` defaults are `Option` fields. -/
structure MatRecord where
  material : Option String
  accepts : Option Bool
  rate_per_kg : Option ℚ
  min_weight_kg : Option ℚ
  max_weight_kg : Option ℚ
deriving DecidableEq

/-- The two supported shapes of the `materials_accepted` key: a flat list of
material codes, or a list of structured records.  The code distinguishes
them with `isinstance(materials_accepted[0], str)`. -/
inductive MaterialsAccepted where
  | strlist (l : List String)
  | reclist (l : List MatRecord)
deriving DecidableEq

/-- A recycler document as read from the recyclers collection by
`rank_recyclers` / `_score_recycler`.  `location` holds the GeoJSON
`[lon, lat]` coordinate pair when the key is present. -/
structure Recycler where
  id : String
  name : Option String
  is_active : Bool
  location : Option (ℚ × ℚ)
  materials_accepted : MaterialsAccepted
  price_multiplier : Option ℚ
  current_capacity_kg : Option ℚ
  max_capacity_kg : Option ℚ
  road_accessibility_score : Option ℚ
  catchment_wards : Option (List String)
deriving DecidableEq

/-- The route estimate consumed by `_score_recycler` from
`osm_service.get_route` (fields `distance_km` and `duration_min`). -/
structure RouteRes where
  distance_km : ℚ
  duration_min : ℚ
deriving DecidableEq

/-- The scored-recycler dict built by `_score_recycler` (the formatted
`route_summary` display string is not modelled). -/
structure ScoreData where
  recycler_id : String
  recycler_name : String
  distance_km : ℚ
  distance_score : ℚ
  material_accept_score : ℚ
  capacity_score : ℚ
  price_score : ℚ
  road_accessibility_score : ℚ
  catchment_zone_match : ℚ
  total_score : ℚ
  location : ℚ × ℚ
  estimated_travel_time_min : ℚ
  estimated_distance_km : ℚ
deriving DecidableEq

/- ==================== per-candidate scoring (marketplace) ================ -/

/-- Python's binary `max`, written so that it evaluates on rationals; equal
to `max` by `max_def`. -/
def pymax (a b : ℚ) : ℚ := if a ≤ b then b else a

/-- Python's binary `min`, written so that it evaluates on rationals; equal
to `min` by `min_def`. -/
def pymin (a b : ℚ) : ℚ := if a ≤ b then a else b

/-- The material-acceptance step of `_score_recycler`
(marketplace_service.py lines 141-172): returns the pair
`(material_accept_score, material_rate)`.  On the flat-string shape a
member material scores 1.0 with rate `base_rate * price_multiplier`; on the
structured shape the first record whose material matches and whose
`accepts` flag (default false) holds is taken, scoring 0.5 instead of 1.0
when the requested weight falls outside the record's
`min_weight_kg`/`max_weight_kg` bounds (defaults 0 and 1000); otherwise the
initial `(0, 0)` stands. -/
def materialStep (ma : MaterialsAccepted) (material : String) (weight_kg : ℚ)
    (price_multiplier : ℚ) : ℚ × ℚ :=
  match ma with
  | .strlist l =>
      if material ∈ l then
        (1, materialBaseRate material * price_multiplier)
      else (0, 0)
  | .reclist l =>
      match l.find? (fun mr =>
          (mr.material == some material) && mr.accepts.getD false) with
      | some mr =>
          ((if weight_kg < mr.min_weight_kg.getD 0 ∨
               weight_kg > mr.max_weight_kg.getD 1000 then (0.5 : ℚ) else 1),
           mr.rate_per_kg.getD 0)
      | none => (0, 0)

/-- The membership test `ward in catchment_wards` where `ward` may be the
Python `None`. -/
def wardMem : Option String → List String → Bool
  | some w, l => decide (w ∈ l)
  | none, _ => false

/-- Shallow embedding of `MarketplaceService._score_recycler`
(marketplace_service.py lines 120-228).  The route returned by
`osm_service.get_route` for this candidate is passed in as `route`.  A
missing `location` key makes the body raise, which the function's own
`except` turns into `None`; a candidate that does not accept the material
is likewise returned as `none`. -/
def score_recycler (route : RouteRes) (recycler : Recycler) (material : String)
    (weight_kg : ℚ) (ward : Option String) : Option ScoreData :=
  match recycler.location with
  | none => none
  | some loc =>
    let distance_km := route.distance_km
    let distance_score := pymax 0 (1 - distance_km / 20)
    let ms := materialStep recycler.materials_accepted material weight_kg
      (recycler.price_multiplier.getD 1)
    let material_accept_score := ms.1
    let material_rate := ms.2
    if material_accept_score = 0 then none
    else
      let current_capacity := recycler.current_capacity_kg.getD 0
      let max_capacity := recycler.max_capacity_kg.getD 1000
      let utilization := if max_capacity > 0 then current_capacity / max_capacity else 0
      let capacity_score := pymax 0 (1 - utilization)
      let base_rate := materialBaseRate material
      let price_quot := if base_rate > 0 then material_rate / base_rate else 1
      let price_score := pymin 1 price_quot
      let road_accessibility_score := recycler.road_accessibility_score.getD 0.7
      let catchment_wards := recycler.catchment_wards.getD []
      let catchment_match :=
        if catchment_wards = [] ∨ wardMem ward catchment_wards then (1 : ℚ) else 0.5
      let total_score :=
        0.3 * distance_score + 0.25 * material_accept_score +
        0.15 * capacity_score + 0.1 * price_score +
        0.1 * road_accessibility_score + 0.1 * catchment_match
      some {
        recycler_id := recycler.id
        recycler_name := recycler.name.getD "Unknown"
        distance_km := distance_km
        distance_score := distance_score
        material_accept_score := material_accept_score
        capacity_score := capacity_score
        price_score := price_score
        road_accessibility_score := road_accessibility_score
        catchment_zone_match := catchment_match
        total_score := total_score
        location := loc
        estimated_travel_time_min := route.duration_min
        estimated_distance_km := distance_km }

/- ===================== OSM routing adapter (osm_service.py) ============== -/

/-- Python's `math.radians`. -/
noncomputable def math_radians (d : ℝ) : ℝ := d * (Real.pi / 180)

/-- Python's `math.atan2` on real (non signed-zero) inputs. -/
noncomputable def math_atan2 (y x : ℝ) : ℝ :=
  if 0 < x then Real.arctan (y / x)
  else if x < 0 then
    (if 0 ≤ y then Real.arctan (y / x) + Real.pi
     else Real.arctan (y / x) - Real.pi)
  else if 0 < y then Real.pi / 2
  else if y < 0 then -(Real.pi / 2)
  else 0

/-- The haversine great-circle distance in kilometres with Earth radius
6371 km, as implemented both by `MarketplaceService._haversine_distance`
(marketplace_service.py lines 301-318) and inline by
`OSMService._haversine_route` (osm_service.py lines 196-207); the two
bodies are the same expression. -/
noncomputable def haversine_distance (lat1 lon1 lat2 lon2 : ℝ) : ℝ :=
  let R : ℝ := 6371
  let dlat := math_radians (lat2 - lat1)
  let dlon := math_radians (lon2 - lon1)
  let a := Real.sin (dlat / 2) ^ 2 +
    Real.cos (math_radians lat1) * Real.cos (math_radians lat2) *
    Real.sin (dlon / 2) ^ 2
  let c := 2 * math_atan2 (Real.sqrt a) (Real.sqrt (1 - a))
  R * c

/-- Python's `round` to an integer: round half to even. -/
noncomputable def roundHalfEven (x : ℝ) : ℤ :=
  if x - ⌊x⌋ < 1 / 2 then ⌊x⌋
  else if 1 / 2 < x - ⌊x⌋ then ⌊x⌋ + 1
  else if Even ⌊x⌋ then ⌊x⌋ else ⌊x⌋ + 1

/-- Python's `round(x, ndigits)` read over the exact real value. -/
noncomputable def pyRound (ndigits : ℕ) (x : ℝ) : ℝ :=
  (roundHalfEven (x * 10 ^ ndigits) : ℝ) / 10 ^ ndigits

/-- The route dict returned by `OSMService.get_route` and
`OSMService._haversine_route`. -/
structure RouteEstimate where
  distance_m : ℝ
  duration_s : ℝ
  distance_km : ℝ
  duration_min : ℝ

/-- Shallow embedding of `OSMService._haversine_route`
(osm_service.py lines 190-218): the deterministic fallback estimate with an
assumed 30 km/h average speed. -/
noncomputable def haversine_route (lat1 lon1 lat2 lon2 : ℝ) : RouteEstimate :=
  let distance_km := haversine_distance lat1 lon1 lat2 lon2
  let distance_m := distance_km * 1000
  let duration_s := (distance_km / 30) * 3600
  { distance_m := distance_m
    duration_s := duration_s
    distance_km := pyRound 2 distance_km
    duration_min := pyRound 1 (duration_s / 60) }

/-- One element of the `routes` list of an OSRM response; `route.get` keys
are `Option` fields. -/
structure OsrmRoute where
  distance : Option ℝ
  duration : Option ℝ

/-- Observable behaviour of the external OSRM call inside
`OSMService.get_route`: an exception (network failure, timeout or a
non-2xx status raised by `raise_for_status`), an empty body, a body that is
not JSON, or a parsed JSON payload with its optional status code and its
(possibly absent, modelled as empty) route list. -/
inductive OsrmResponse where
  | exn
  | emptyBody
  | badJson
  | payload (code : Option String) (routes : List OsrmRoute)

/-- Shallow embedding of `OSMService.get_route`
(osm_service.py lines 134-188), parameterised by the behaviour of the
external routing service. -/
noncomputable def get_route (start_lon start_lat end_lon end_lat : ℝ) :
    OsrmResponse → RouteEstimate
  | .exn => haversine_route start_lat start_lon end_lat end_lon
  | .emptyBody => haversine_route start_lat start_lon end_lat end_lon
  | .badJson => haversine_route start_lat start_lon end_lat end_lon
  | .payload code routes =>
    match routes with
    | r :: _ =>
      if code = some "Ok" then
        { distance_m := r.distance.getD 0
          duration_s := r.duration.getD 0
          distance_km := pyRound 2 (r.distance.getD 0 / 1000)
          duration_min := pyRound 1 (r.duration.getD 0 / 60) }
      else haversine_route start_lat start_lon end_lat end_lon
    | [] => haversine_route start_lat start_lon end_lat end_lon

/- ================== candidate lookup and ranking pipeline ================ -/

/-- The sort key used by `rank_recyclers`:
`sort(key=lambda x: x["total_score"], reverse=True)` is the stable sort
that places `a` before `b` exactly when `b`'s total score is at most
`a`'s. -/
def scoreLE (a b : ScoreData) : Bool := decide (b.total_score ≤ a.total_score)

/-- The per-candidate scoring loop of `rank_recyclers`
(marketplace_service.py lines 90-103): score every candidate, keeping the
non-`None` results in candidate order. -/
def scoredList (routeOf : Recycler → RouteRes) (candidates : List Recycler)
    (material : String) (weight_kg : ℚ) (ward : Option String) : List ScoreData :=
  candidates.filterMap (fun r => score_recycler (routeOf r) r material weight_kg ward)

/-- The candidate-lookup step of `rank_recyclers`
(marketplace_service.py lines 43-83).  `geoQuery` is the outcome of the
native geospatial query for active recyclers within 20 km (read with
`to_list(length=50)`); on its failure `allActive` is the outcome of the
unfiltered active-recycler fetch (read with `to_list(length=100)`), whose
rows with a location are filtered in process by the haversine distance with
the same 20 km threshold.  An error of the fallback fetch propagates. -/
noncomputable def candidatesOf (geoQuery allActive : Except Unit (List Recycler))
    (user_lat user_lon : ℝ) : Except Unit (List Recycler) :=
  match geoQuery with
  | .ok l => .ok (l.take 50)
  | .error _ =>
    match allActive with
    | .error _ => .error ()
    | .ok l => .ok ((l.take 100).filter (fun r =>
        match r.location with
        | some p => decide (haversine_distance user_lat user_lon (p.2 : ℝ) (p.1 : ℝ) ≤ 20)
        | none => false))

/-- Shallow embedding of `MarketplaceService.rank_recyclers`
(marketplace_service.py lines 20-118).  `routeOf` gives the per-candidate
route estimate from `osm_service.get_route` (a total function, see
`get_route`).  Any exception reaching the outer handler — in particular a
failure of both store queries — yields the empty list; an empty candidate
set returns the empty list; otherwise candidates are scored, stably sorted
by descending total score and truncated to the top 10.  The final
per-entry `RecyclerScore(**sr)` model construction is field-preserving and
is modelled as the identity. -/
noncomputable def rank_recyclers (geoQuery allActive : Except Unit (List Recycler))
    (routeOf : Recycler → RouteRes) (user_lat user_lon : ℝ) (material : String)
    (weight_kg : ℚ) (ward : Option String) : List ScoreData :=
  match candidatesOf geoQuery allActive user_lat user_lon with
  | .error _ => []
  | .ok recyclers =>
    if recyclers = [] then []
    else ((scoredList routeOf recyclers material weight_kg ward).mergeSort scoreLE).take 10

/- ================== dual-tier RAG retrieval (rag_service.py) ============= -/

/-- A document of the global RAG collection as read by `retrieve_global`. -/
structure GlobalDoc where
  id : String
  title : String
  content : String
  category : String
  city : Option String
deriving DecidableEq

/-- A document of the personal RAG collection as read by
`retrieve_personal`; `user_id` is the owning requester. -/
structure PersonalDoc where
  id : String
  user_id : String
  content : String
  doc_type : String
deriving DecidableEq

/-- An output entry of `retrieve_global`. -/
structure RetrievedGlobalDoc where
  id : String
  title : String
  content : String
  category : String
  score : ℚ
deriving DecidableEq

/-- An output entry of `retrieve_personal`. -/
structure RetrievedPersonalDoc where
  id : String
  content : String
  doc_type : String
  score : ℚ
deriving DecidableEq

/-- Lookup in the score map built by the dict comprehension
`{doc_id: score for doc_id, score in results}`: a later entry for the same
identifier overwrites an earlier one. -/
def scoreMapGet (results : List (String × ℚ)) (docId : String) : Option ℚ :=
  ((results.filter (fun p => p.1 == docId)).getLast?).map Prod.snd

/-- The Mongo filter of `retrieve_global`: identifier among the vector-search
hits, optional category equality, and optionally the `$or` of the requested
city or a null city. -/
def globalFilter (doc_ids : List String) (category city : Option String)
    (d : GlobalDoc) : Bool :=
  decide (d.id ∈ doc_ids) &&
  (match category with | some c => d.category == c | none => true) &&
  (match city with | some c => (d.city == some c) || (d.city == none) | none => true)

/-- The Mongo filter of `retrieve_personal`: identifier among the
vector-search hits, the mandatory `user_id` equality, and an optional
`doc_type` equality. -/
def personalFilter (doc_ids : List String) (user_id : String)
    (doc_type : Option String) (d : PersonalDoc) : Bool :=
  decide (d.id ∈ doc_ids) && (d.user_id == user_id) &&
  (match doc_type with | some t => d.doc_type == t | none => true)

/-- Shallow embedding of `RAGService.retrieve_global`
(rag_service.py lines 214-272).  `store` is the global collection in cursor
order, `results` the `(doc_id, score)` hits of the shared vector index.
Hits are joined against the store (read with `to_list(length=top_k * 2)`),
inherit the index score, and are stably sorted by descending score and
truncated to `top_k`. -/
def retrieve_global (store : List GlobalDoc) (results : List (String × ℚ))
    (top_k : ℕ) (category city : Option String) : List RetrievedGlobalDoc :=
  let doc_ids := results.map Prod.fst
  let docs := (store.filter (globalFilter doc_ids category city)).take (top_k * 2)
  let output := docs.filterMap (fun d =>
    (scoreMapGet results d.id).map (fun s =>
      { id := d.id, title := d.title, content := d.content,
        category := d.category, score := s }))
  (output.mergeSort (fun a b => decide (b.score ≤ a.score))).take top_k

/-- Shallow embedding of `RAGService.retrieve_personal`
(rag_service.py lines 274-335).  Identical join shape to the global tier
but the store lookup additionally carries the mandatory
`"user_id": ObjectId(user_id)` equality.  The best-effort
`relevance_count` increment is a store side effect outside this value
model. -/
def retrieve_personal (store : List PersonalDoc) (results : List (String × ℚ))
    (user_id : String) (top_k : ℕ) (doc_type : Option String) :
    List RetrievedPersonalDoc :=
  let doc_ids := results.map Prod.fst
  let docs := (store.filter (personalFilter doc_ids user_id doc_type)).take (top_k * 2)
  let output := docs.filterMap (fun d =>
    (scoreMapGet results d.id).map (fun s =>
      { id := d.id, content := d.content, doc_type := d.doc_type, score := s }))
  (output.mergeSort (fun a b => decide (b.score ≤ a.score))).take top_k

/-- Shallow embedding of `RAGService.dual_retrieve`
(rag_service.py lines 337-374): the pair of the global-tier result (with
the category and city filters) and the personal-tier result for the
requesting identity (no `doc_type` filter).  `gresults` and `presults` are
the hits of the two independently scoped vector indices. -/
def dual_retrieve (gstore : List GlobalDoc) (pstore : List PersonalDoc)
    (gresults presults : List (String × ℚ)) (user_id : String)
    (global_top_k personal_top_k : ℕ) (category city : Option String) :
    List RetrievedGlobalDoc × List RetrievedPersonalDoc :=
  (retrieve_global gstore gresults global_top_k category city,
   retrieve_personal pstore presults user_id personal_top_k none)

/- ========================= concrete test fixtures ======================== -/

/-- A concrete route estimate used by the witness statements. -/
def routeW : RouteRes := { distance_km := 2, duration_min := 10 }

/-- A concrete flat-shape recycler used by the witness statements. -/
def recFlat : Recycler :=
  { id := "r1", name := some "GreenCo", is_active := true,
    location := some (77, 13),
    materials_accepted := .strlist ["PET", "Glass"], price_multiplier := none,
    current_capacity_kg := some 200, max_capacity_kg := some 1000,
    road_accessibility_score := none, catchment_wards := none }

/-- A concrete structured-shape recycler whose only record accepts PET
between 5 kg and 100 kg. -/
def recRecord : Recycler :=
  { id := "r2", name := none, is_active := true, location := some (77, 13),
    materials_accepted := .reclist
      [{ material := some "PET", accepts := some true, rate_per_kg := some 10,
         min_weight_kg := some 5, max_weight_kg := some 100 }],
    price_multiplier := none,
    current_capacity_kg := none, max_capacity_kg := none,
    road_accessibility_score := none, catchment_wards := none }

/-- A recycler document whose stored current capacity is negative. -/
def recNegCap : Recycler :=
  { id := "r3", name := none, is_active := true, location := some (77, 13),
    materials_accepted := .strlist ["PET"], price_multiplier := none,
    current_capacity_kg := some (-100), max_capacity_kg := some 1000,
    road_accessibility_score := none, catchment_wards := none }

/-- A recycler document whose stored maximum capacity is zero. -/
def recZeroMax : Recycler :=
  { id := "r4", name := none, is_active := true, location := some (77, 13),
    materials_accepted := .strlist ["PET"], price_multiplier := none,
    current_capacity_kg := some 50, max_capacity_kg := some 0,
    road_accessibility_score := none, catchment_wards := none }

/-- A recycler document without a location key: scoring it raises and the
candidate is skipped. -/
def recNoLoc : Recycler :=
  { id := "r5", name := none, is_active := true, location := none,
    materials_accepted := .strlist ["PET"], price_multiplier := none,
    current_capacity_kg := none, max_capacity_kg := none,
    road_accessibility_score := none, catchment_wards := none }

/-- A concrete personal document used by the witness statements. -/
def pdocW : PersonalDoc :=
  { id := "d1", user_id := "u1", content := "note", doc_type := "scan" }

/- ====================== helper lemmas (not claim-named) ================== -/

theorem pymax_eq_max (a b : ℚ) : pymax a b = max a b := (max_def a b).symm

theorem pymin_eq_min (a b : ℚ) : pymin a b = min a b := (min_def a b).symm

theorem materialBaseRate_pos (material : String) : 0 < materialBaseRate material := by
  unfold materialBaseRate
  cases h : MATERIAL_RATES.find? (fun p => p.1 == material) with
  | none => norm_num
  | some p =>
    have hm : p ∈ MATERIAL_RATES := List.mem_of_find?_eq_some h
    simp only [Option.map_some', Option.getD_some]
    fin_cases hm <;> norm_num

theorem materialStep_fst (ma : MaterialsAccepted) (material : String) (weight_kg pm : ℚ) :
    (materialStep ma material weight_kg pm).1 = 0 ∨
    (materialStep ma material weight_kg pm).1 = 0.5 ∨
    (materialStep ma material weight_kg pm).1 = 1 := by
  cases ma with
  | strlist l => by_cases h : material ∈ l <;> simp [materialStep, h]
  | reclist l =>
    cases h : l.find? (fun mr => (mr.material == some material) && mr.accepts.getD false) with
    | none => simp [materialStep, h]
    | some mr =>
      simp only [materialStep, h]
      split <;> norm_num

theorem score_recycler_some_iff (route : RouteRes) (rec : Recycler) (material : String)
    (weight_kg : ℚ) (ward : Option String) (sd : ScoreData) :
    score_recycler route rec material weight_kg ward = some sd ↔
      ∃ loc, rec.location = some loc ∧
        (materialStep rec.materials_accepted material weight_kg (rec.price_multiplier.getD 1)).1 ≠ 0 ∧
        sd = { recycler_id := rec.id
               recycler_name := rec.name.getD "Unknown"
               distance_km := route.distance_km
               distance_score := pymax 0 (1 - route.distance_km / 20)
               material_accept_score := (materialStep rec.materials_accepted material weight_kg (rec.price_multiplier.getD 1)).1
               capacity_score := pymax 0 (1 - (if rec.max_capacity_kg.getD 1000 > 0 then rec.current_capacity_kg.getD 0 / rec.max_capacity_kg.getD 1000 else 0))
               price_score := pymin 1 (if materialBaseRate material > 0 then (materialStep rec.materials_accepted material weight_kg (rec.price_multiplier.getD 1)).2 / materialBaseRate material else 1)
               road_accessibility_score := rec.road_accessibility_score.getD 0.7
               catchment_zone_match := if rec.catchment_wards.getD [] = [] ∨ wardMem ward (rec.catchment_wards.getD []) then (1 : ℚ) else 0.5
               total_score := 0.3 * pymax 0 (1 - route.distance_km / 20) +
                 0.25 * (materialStep rec.materials_accepted material weight_kg (rec.price_multiplier.getD 1)).1 +
                 0.15 * pymax 0 (1 - (if rec.max_capacity_kg.getD 1000 > 0 then rec.current_capacity_kg.getD 0 / rec.max_capacity_kg.getD 1000 else 0)) +
                 0.1 * pymin 1 (if materialBaseRate material > 0 then (materialStep rec.materials_accepted material weight_kg (rec.price_multiplier.getD 1)).2 / materialBaseRate material else 1) +
                 0.1 * rec.road_accessibility_score.getD 0.7 +
                 0.1 * (if rec.catchment_wards.getD [] = [] ∨ wardMem ward (rec.catchment_wards.getD []) then (1 : ℚ) else 0.5)
               location := loc
               estimated_travel_time_min := route.duration_min
               estimated_distance_km := route.distance_km } := by
  unfold score_recycler
  cases hl : rec.location with
  | none => simp
  | some loc =>
    simp only []
    split
    · next hz => simp [hz]
    · next hz =>
      constructor
      · intro h
        exact ⟨loc, rfl, hz, by injection h with h; exact h.symm⟩
      · rintro ⟨loc2, hloc2, -, rfl⟩
        injection hloc2 with h2
        subst h2
        rfl

theorem score_recycler_none_of_ms_zero (route : RouteRes) (rec : Recycler)
    (material : String) (weight_kg : ℚ) (ward : Option String)
    (h : (materialStep rec.materials_accepted material weight_kg (rec.price_multiplier.getD 1)).1 = 0) :
    score_recycler route rec material weight_kg ward = none := by
  unfold score_recycler
  cases hl : rec.location with
  | none => rfl
  | some loc => simp [h]

/- ============================== claim C1 ================================= -/

/-- C1: the material-acceptance sub-score is 1.0 when the candidate accepts
the requested material in the flat-string shape, 1.0 in the structured
shape when the matching accepting record's weight bounds admit the
requested weight and 0.5 when they do not; a candidate that does not accept
the material is dropped (scored as `none`), and consequently no entry of a
ranking result carries material-acceptance score 0. -/
theorem material_acceptance_gate
    (route : RouteRes) (rec : Recycler) (material : String) (weight_kg : ℚ)
    (ward : Option String) :
    (∀ sd, score_recycler route rec material weight_kg ward = some sd →
      sd.material_accept_score = 1 ∨ sd.material_accept_score = 0.5) ∧
    (∀ l loc, rec.materials_accepted = .strlist l → rec.location = some loc →
      material ∈ l →
      ∃ sd, score_recycler route rec material weight_kg ward = some sd ∧
        sd.material_accept_score = 1) ∧
    (∀ l mr loc, rec.materials_accepted = .reclist l → rec.location = some loc →
      l.find? (fun r => (r.material == some material) && r.accepts.getD false) = some mr →
      ∃ sd, score_recycler route rec material weight_kg ward = some sd ∧
        sd.material_accept_score =
          (if weight_kg < mr.min_weight_kg.getD 0 ∨ weight_kg > mr.max_weight_kg.getD 1000
           then (0.5 : ℚ) else 1)) ∧
    (∀ l, rec.materials_accepted = .strlist l → material ∉ l →
      score_recycler route rec material weight_kg ward = none) ∧
    (∀ l, rec.materials_accepted = .reclist l →
      l.find? (fun r => (r.material == some material) && r.accepts.getD false) = none →
      score_recycler route rec material weight_kg ward = none) ∧
    (∀ geoQuery allActive routeOf user_lat user_lon,
      ∀ sd ∈ rank_recyclers geoQuery allActive routeOf user_lat user_lon material weight_kg ward,
        sd.material_accept_score ≠ 0) := by
  have hms : ∀ (route2 : RouteRes) (rec2 : Recycler) sd,
      score_recycler route2 rec2 material weight_kg ward = some sd →
      sd.material_accept_score = 1 ∨ sd.material_accept_score = 0.5 := by
    intro route2 rec2 sd h
    rw [score_recycler_some_iff] at h
    obtain ⟨loc, -, hne, rfl⟩ := h
    rcases materialStep_fst rec2.materials_accepted material weight_kg
      (rec2.price_multiplier.getD 1) with h0 | h05 | h1
    · exact absurd h0 hne
    · exact Or.inr h05
    · exact Or.inl h1
  refine ⟨hms route rec, ?_, ?_, ?_, ?_, ?_⟩
  · intro l loc hma hloc hmem
    refine ⟨_, (score_recycler_some_iff route rec material weight_kg ward _).mpr
      ⟨loc, hloc, ?_, rfl⟩, ?_⟩
    · simp [materialStep, hma, hmem]
    · simp [materialStep, hma, hmem]
  · intro l mr loc hma hloc hfind
    refine ⟨_, (score_recycler_some_iff route rec material weight_kg ward _).mpr
      ⟨loc, hloc, ?_, rfl⟩, ?_⟩
    · simp only [materialStep, hma, hfind]
      split <;> norm_num
    · simp only [materialStep, hma, hfind]
  · intro l hma hmem
    apply score_recycler_none_of_ms_zero
    simp [materialStep, hma, hmem]
  · intro l hma hfind
    apply score_recycler_none_of_ms_zero
    simp [materialStep, hma, hfind]
  · intro geoQuery allActive routeOf user_lat user_lon sd hsd
    unfold rank_recyclers at hsd
    rcases hcand : candidatesOf geoQuery allActive user_lat user_lon with e | recyclers
    · rw [hcand] at hsd; simp at hsd
    · rw [hcand] at hsd
      simp only at hsd
      split at hsd
      · simp at hsd
      · have hsd2 := List.mem_of_mem_take hsd
        rw [List.mem_mergeSort] at hsd2
        unfold scoredList at hsd2
        rw [List.mem_filterMap] at hsd2
        obtain ⟨r, -, hr⟩ := hsd2
        rcases hms (routeOf r) r sd hr with h1 | h05
        · rw [h1]; norm_num
        · rw [h05]; norm_num

/-- Witness for C1: the flat-shape fixture scores PET with
material-acceptance 1.0, is dropped entirely for Steel, and the
structured-shape fixture scores a 2 kg request against a 5 kg minimum with
material-acceptance 0.5. -/
theorem material_acceptance_gate_witness :
    (∃ sd, score_recycler routeW recFlat "PET" 2 none = some sd ∧
      sd.material_accept_score = 1) ∧
    score_recycler routeW recFlat "Steel" 2 none = none ∧
    (∃ sd, score_recycler routeW recRecord "PET" 2 none = some sd ∧
      sd.material_accept_score = 0.5) := by
  refine ⟨?_, ?_, ?_⟩
  · exact (material_acceptance_gate routeW recFlat "PET" 2 none).2.1
      ["PET", "Glass"] (77, 13) rfl rfl (by simp)
  · exact (material_acceptance_gate routeW recFlat "Steel" 2 none).2.2.2.1
      ["PET", "Glass"] rfl (by simp)
  · obtain ⟨sd, hsd, hms⟩ :=
      (material_acceptance_gate routeW recRecord "PET" 2 none).2.2.1
        [{ material := some "PET", accepts := some true, rate_per_kg := some 10,
           min_weight_kg := some 5, max_weight_kg := some 100 }]
        { material := some "PET", accepts := some true, rate_per_kg := some 10,
          min_weight_kg := some 5, max_weight_kg := some 100 }
        (77, 13) rfl rfl rfl
    refine ⟨sd, hsd, ?_⟩
    rw [hms]
    norm_num

/- ============================== claim C2 ================================= -/

/-- Counterexample for C2 as frozen: a stored negative current capacity
meets every hypothesis the claim lists (non-negative route distance,
non-negative candidate rate, stored road-accessibility in the unit
interval) yet drives the capacity sub-score above 1. -/
theorem subscore_range_counterexample :
    0 ≤ routeW.distance_km ∧
    0 ≤ (materialStep recNegCap.materials_accepted "PET" 2
      (recNegCap.price_multiplier.getD 1)).2 ∧
    (∀ r, recNegCap.road_accessibility_score = some r → 0 ≤ r ∧ r ≤ 1) ∧
    ∃ sd, score_recycler routeW recNegCap "PET" 2 none = some sd ∧
      1 < sd.capacity_score := by
  refine ⟨by norm_num [routeW], ?_, ?_, ?_⟩
  · norm_num [recNegCap, materialStep, materialBaseRate, MATERIAL_RATES]
  · intro r h
    simp [recNegCap] at h
  · refine ⟨_, (score_recycler_some_iff routeW recNegCap "PET" 2 none _).mpr
      ⟨(77, 13), rfl, ?_, rfl⟩, ?_⟩
    · simp [recNegCap, materialStep]
    · norm_num [recNegCap, pymax]

/-- C2 amended: with the additionally required non-negative stored current
capacity (the frozen claim omits it, and `subscore_range_counterexample`
shows it is needed), every scored candidate's six sub-scores lie in the
unit interval and the total equals exactly the fixed-weight dot product
0.30, 0.25, 0.15, 0.10, 0.10, 0.10 of the six sub-scores. -/
theorem subscore_bounds_and_total
    (route : RouteRes) (rec : Recycler) (material : String) (weight_kg : ℚ)
    (ward : Option String) (sd : ScoreData)
    (hdist : 0 ≤ route.distance_km)
    (hrate : 0 ≤ (materialStep rec.materials_accepted material weight_kg
      (rec.price_multiplier.getD 1)).2)
    (hroad : ∀ r, rec.road_accessibility_score = some r → 0 ≤ r ∧ r ≤ 1)
    (hcur : 0 ≤ rec.current_capacity_kg.getD 0)
    (h : score_recycler route rec material weight_kg ward = some sd) :
    (0 ≤ sd.distance_score ∧ sd.distance_score ≤ 1) ∧
    (0 ≤ sd.material_accept_score ∧ sd.material_accept_score ≤ 1) ∧
    (0 ≤ sd.capacity_score ∧ sd.capacity_score ≤ 1) ∧
    (0 ≤ sd.price_score ∧ sd.price_score ≤ 1) ∧
    (0 ≤ sd.road_accessibility_score ∧ sd.road_accessibility_score ≤ 1) ∧
    (0 ≤ sd.catchment_zone_match ∧ sd.catchment_zone_match ≤ 1) ∧
    sd.total_score = 0.3 * sd.distance_score + 0.25 * sd.material_accept_score +
      0.15 * sd.capacity_score + 0.1 * sd.price_score +
      0.1 * sd.road_accessibility_score + 0.1 * sd.catchment_zone_match := by
  rw [score_recycler_some_iff] at h
  obtain ⟨loc, hloc, hne, rfl⟩ := h
  have hd20 : (0 : ℚ) ≤ route.distance_km / 20 :=
    div_nonneg hdist (by norm_num)
  have hbase := materialBaseRate_pos material
  have hmat : 0 ≤ (materialStep rec.materials_accepted material weight_kg
      (rec.price_multiplier.getD 1)).1 ∧
      (materialStep rec.materials_accepted material weight_kg
      (rec.price_multiplier.getD 1)).1 ≤ 1 := by
    rcases materialStep_fst rec.materials_accepted material weight_kg
      (rec.price_multiplier.getD 1) with h0 | h05 | h1
    · exact absurd h0 hne
    · rw [h05]; norm_num
    · rw [h1]; norm_num
  have hroadval : 0 ≤ rec.road_accessibility_score.getD 0.7 ∧
      rec.road_accessibility_score.getD 0.7 ≤ 1 := by
    cases hr : rec.road_accessibility_score with
    | none => norm_num
    | some r => simpa using hroad r hr
  have hcat : 0 ≤ (if rec.catchment_wards.getD [] = [] ∨
        wardMem ward (rec.catchment_wards.getD []) then (1 : ℚ) else 0.5) ∧
      (if rec.catchment_wards.getD [] = [] ∨
        wardMem ward (rec.catchment_wards.getD []) then (1 : ℚ) else 0.5) ≤ 1 := by
    split <;> norm_num
  refine ⟨⟨?_, ?_⟩, hmat, ⟨?_, ?_⟩, ⟨?_, ?_⟩, hroadval, hcat, ?_⟩
  · rw [pymax_eq_max]; exact le_max_left _ _
  · rw [pymax_eq_max]
    exact max_le (by norm_num) (by linarith)
  · rw [pymax_eq_max]; exact le_max_left _ _
  · rw [pymax_eq_max]
    refine max_le (by norm_num) ?_
    split
    · next hpos =>
      have : 0 ≤ rec.current_capacity_kg.getD 0 / rec.max_capacity_kg.getD 1000 :=
        div_nonneg hcur hpos.le
      linarith
    · norm_num
  · rw [pymin_eq_min]
    refine le_min (by norm_num) ?_
    rw [if_pos hbase]
    exact div_nonneg hrate hbase.le
  · rw [pymin_eq_min]
    exact min_le_left _ _
  · rfl

/-- Witness for the amended C2 at the flat-shape fixture. -/
theorem subscore_bounds_and_total_witness :
    ∃ sd, score_recycler routeW recFlat "PET" 2 none = some sd ∧
      ((0 ≤ sd.distance_score ∧ sd.distance_score ≤ 1) ∧
       (0 ≤ sd.material_accept_score ∧ sd.material_accept_score ≤ 1) ∧
       (0 ≤ sd.capacity_score ∧ sd.capacity_score ≤ 1) ∧
       (0 ≤ sd.price_score ∧ sd.price_score ≤ 1) ∧
       (0 ≤ sd.road_accessibility_score ∧ sd.road_accessibility_score ≤ 1) ∧
       (0 ≤ sd.catchment_zone_match ∧ sd.catchment_zone_match ≤ 1) ∧
       sd.total_score = 0.3 * sd.distance_score + 0.25 * sd.material_accept_score +
         0.15 * sd.capacity_score + 0.1 * sd.price_score +
         0.1 * sd.road_accessibility_score + 0.1 * sd.catchment_zone_match) := by
  have h : ∃ sd, score_recycler routeW recFlat "PET" 2 none = some sd :=
    ⟨_, (score_recycler_some_iff routeW recFlat "PET" 2 none _).mpr
      ⟨(77, 13), rfl, by simp [recFlat, materialStep], rfl⟩⟩
  obtain ⟨sd, hsd⟩ := h
  refine ⟨sd, hsd, subscore_bounds_and_total routeW recFlat "PET" 2 none sd
    (by norm_num [routeW]) ?_ ?_ (by norm_num [recFlat]) hsd⟩
  · norm_num [recFlat, materialStep, materialBaseRate, MATERIAL_RATES]
  · intro r hr
    simp [recFlat] at hr

/- ============================== claim C6 ================================= -/

/-- Counterexample for C6 as frozen: with a stored maximum capacity of
zero the code takes utilization 0 and produces a capacity score of exactly
1.0, which the claim says is disallowed. -/
theorem capacity_zero_max_counterexample :
    recZeroMax.max_capacity_kg.getD 1000 = 0 ∧
    ∃ sd, score_recycler routeW recZeroMax "PET" 2 none = some sd ∧
      sd.capacity_score = 1 := by
  refine ⟨rfl, ⟨_, (score_recycler_some_iff routeW recZeroMax "PET" 2 none _).mpr
    ⟨(77, 13), rfl, ?_, rfl⟩, ?_⟩⟩
  · simp [recZeroMax, materialStep]
  · norm_num [recZeroMax, pymax]

/-- C6 amended: the capacity sub-score of every scored candidate equals
max(0, 1 - current_capacity/max_capacity) when the stored maximum capacity
(default 1000) is positive, and equals 1.0 — zero utilization — when it is
zero or negative. -/
theorem capacity_score_formula
    (route : RouteRes) (rec : Recycler) (material : String) (weight_kg : ℚ)
    (ward : Option String) (sd : ScoreData)
    (h : score_recycler route rec material weight_kg ward = some sd) :
    sd.capacity_score =
      if 0 < rec.max_capacity_kg.getD 1000 then
        max 0 (1 - rec.current_capacity_kg.getD 0 / rec.max_capacity_kg.getD 1000)
      else 1 := by
  rw [score_recycler_some_iff] at h
  obtain ⟨loc, -, -, rfl⟩ := h
  show pymax 0 (1 - (if rec.max_capacity_kg.getD 1000 > 0 then
    rec.current_capacity_kg.getD 0 / rec.max_capacity_kg.getD 1000 else 0)) = _
  rw [pymax_eq_max]
  by_cases hm : 0 < rec.max_capacity_kg.getD 1000
  · rw [if_pos hm, if_pos hm]
  · rw [if_neg hm, if_neg hm]
    norm_num

/-- Witness for the amended C6 at the flat-shape fixture. -/
theorem capacity_score_formula_witness :
    ∃ sd, score_recycler routeW recFlat "PET" 2 none = some sd ∧
      sd.capacity_score =
        if 0 < recFlat.max_capacity_kg.getD 1000 then
          max 0 (1 - recFlat.current_capacity_kg.getD 0 / recFlat.max_capacity_kg.getD 1000)
        else 1 := by
  have h : ∃ sd, score_recycler routeW recFlat "PET" 2 none = some sd :=
    ⟨_, (score_recycler_some_iff routeW recFlat "PET" 2 none _).mpr
      ⟨(77, 13), rfl, by simp [recFlat, materialStep], rfl⟩⟩
  obtain ⟨sd, hsd⟩ := h
  exact ⟨sd, hsd, capacity_score_formula routeW recFlat "PET" 2 none sd hsd⟩

/- ============================== claim C5 ================================= -/

theorem scoreLE_trans (a b c : ScoreData) (h1 : scoreLE a b) (h2 : scoreLE b c) :
    scoreLE a c := by
  simp only [scoreLE, decide_eq_true_eq] at h1 h2 ⊢
  exact le_trans h2 h1

theorem scoreLE_total (a b : ScoreData) : scoreLE a b || scoreLE b a := by
  simp only [scoreLE]
  rcases le_total a.total_score b.total_score with h | h <;> simp [h]

theorem mergeSort_filter_score_eq (l : List ScoreData) (q : ℚ) :
    (l.mergeSort scoreLE).filter (fun x => decide (x.total_score = q)) =
      l.filter (fun x => decide (x.total_score = q)) := by
  have hperm : List.Perm
      ((l.mergeSort scoreLE).filter (fun x => decide (x.total_score = q)))
      (l.filter (fun x => decide (x.total_score = q))) :=
    (List.mergeSort_perm l scoreLE).filter _
  have hc : (l.filter (fun x => decide (x.total_score = q))).Pairwise
      (fun a b => scoreLE a b) := by
    apply List.pairwise_of_forall_mem_list
    intro a ha b hb
    have ha2 := (List.mem_filter.mp ha).2
    have hb2 := (List.mem_filter.mp hb).2
    simp only [decide_eq_true_eq] at ha2 hb2
    simp [scoreLE, hb2, ha2]
  have hsub : List.Sublist (l.filter (fun x => decide (x.total_score = q)))
      (l.mergeSort scoreLE) :=
    List.sublist_mergeSort scoreLE_trans scoreLE_total hc (List.filter_sublist l)
  have hidem : (l.filter (fun x => decide (x.total_score = q))).filter
      (fun x => decide (x.total_score = q)) =
      l.filter (fun x => decide (x.total_score = q)) := by
    rw [List.filter_filter]
    simp
  have hsub2 : List.Sublist (l.filter (fun x => decide (x.total_score = q)))
      ((l.mergeSort scoreLE).filter (fun x => decide (x.total_score = q))) := by
    have h := hsub.filter (fun x => decide (x.total_score = q))
    rwa [hidem] at h
  exact (hsub2.eq_of_length hperm.length_eq.symm).symm

theorem rank_recyclers_shape
    (geoQuery allActive : Except Unit (List Recycler)) (routeOf : Recycler → RouteRes)
    (user_lat user_lon : ℝ) (material : String) (weight_kg : ℚ) (ward : Option String) :
    rank_recyclers geoQuery allActive routeOf user_lat user_lon material weight_kg ward = [] ∨
    ∃ recyclers, candidatesOf geoQuery allActive user_lat user_lon = .ok recyclers ∧
      rank_recyclers geoQuery allActive routeOf user_lat user_lon material weight_kg ward =
        ((scoredList routeOf recyclers material weight_kg ward).mergeSort scoreLE).take 10 := by
  unfold rank_recyclers
  cases candidatesOf geoQuery allActive user_lat user_lon with
  | error e => left; rfl
  | ok recyclers =>
    by_cases hemp : recyclers = []
    · left; simp [hemp]
    · right; exact ⟨recyclers, rfl, by simp [hemp]⟩

/-- C5: every ranking result has at most 10 entries and is sorted by
non-increasing total score, and the stable sort means entries of equal
total score keep their pre-sort order: filtering the sorted scored list to
any one total-score value gives exactly the filtered pre-sort scored
list. -/
theorem rank_sorted_truncated_stable
    (geoQuery allActive : Except Unit (List Recycler)) (routeOf : Recycler → RouteRes)
    (user_lat user_lon : ℝ) (material : String) (weight_kg : ℚ) (ward : Option String) :
    (rank_recyclers geoQuery allActive routeOf user_lat user_lon material weight_kg ward).length ≤ 10 ∧
    (rank_recyclers geoQuery allActive routeOf user_lat user_lon material weight_kg ward).Pairwise
      (fun a b => b.total_score ≤ a.total_score) ∧
    (∀ (cands : List Recycler) (q : ℚ),
      ((scoredList routeOf cands material weight_kg ward).mergeSort scoreLE).filter
          (fun x => decide (x.total_score = q)) =
        (scoredList routeOf cands material weight_kg ward).filter
          (fun x => decide (x.total_score = q))) := by
  refine ⟨?_, ?_, fun cands q => mergeSort_filter_score_eq _ q⟩
  · rcases rank_recyclers_shape geoQuery allActive routeOf user_lat user_lon material
      weight_kg ward with h | ⟨recyclers, -, h⟩
    · simp [h]
    · rw [h, List.length_take]
      exact min_le_left _ _
  · rcases rank_recyclers_shape geoQuery allActive routeOf user_lat user_lon material
      weight_kg ward with h | ⟨recyclers, -, h⟩
    · simp [h]
    · rw [h]
      have hs : ((scoredList routeOf recyclers material weight_kg ward).mergeSort scoreLE).Pairwise
          (fun a b => scoreLE a b) :=
        List.sorted_mergeSort scoreLE_trans scoreLE_total _
      have ht := List.Pairwise.sublist (List.take_sublist 10 _) hs
      exact ht.imp (fun hab => by
        simpa only [scoreLE, decide_eq_true_eq] using hab)

/- ============================== claim C8 ================================= -/

/-- C8: the primary lookup path returns the native geospatial query's rows
capped at 50; when the native query raises, the fallback fetches up to 100
active rows and keeps exactly those whose stored location lies within the
same 20 km great-circle threshold; and an empty candidate set makes the
ranking return an empty list rather than an error. -/
theorem candidate_lookup_paths
    (geoQuery allActive : Except Unit (List Recycler))
    (geoList allList : List Recycler) (routeOf : Recycler → RouteRes)
    (user_lat user_lon : ℝ) (material : String) (weight_kg : ℚ) (ward : Option String) :
    candidatesOf (.ok geoList) allActive user_lat user_lon = .ok (geoList.take 50) ∧
    (geoList.take 50).length ≤ 50 ∧
    (∀ r : Recycler, ∃ l, candidatesOf (.error ()) (.ok allList) user_lat user_lon = .ok l ∧
      (r ∈ l ↔ r ∈ allList.take 100 ∧ ∃ lon lat, r.location = some (lon, lat) ∧
        haversine_distance user_lat user_lon (lat : ℝ) (lon : ℝ) ≤ 20)) ∧
    (candidatesOf geoQuery allActive user_lat user_lon = .ok [] →
      rank_recyclers geoQuery allActive routeOf user_lat user_lon material weight_kg ward = []) := by
  refine ⟨rfl, ?_, ?_, ?_⟩
  · rw [List.length_take]
    exact min_le_left _ _
  · intro r
    refine ⟨_, rfl, ?_⟩
    rw [List.mem_filter]
    constructor
    · rintro ⟨hm, hp⟩
      refine ⟨hm, ?_⟩
      cases hloc : r.location with
      | none => rw [hloc] at hp; exact absurd hp (by simp)
      | some p =>
        obtain ⟨lon, lat⟩ := p
        rw [hloc] at hp
        simp only [decide_eq_true_eq] at hp
        exact ⟨lon, lat, rfl, hp⟩
    · rintro ⟨hm, lon, lat, hloc, hd⟩
      refine ⟨hm, ?_⟩
      rw [hloc]
      simpa using hd
  · intro h
    unfold rank_recyclers
    rw [h]
    simp

/-- Witness for C8: with an empty primary query result the ranking engine
returns the empty list. -/
theorem candidate_lookup_paths_witness :
    rank_recyclers (.ok []) (.ok []) (fun _ => routeW) 0 0 "PET" 2 none = [] :=
  (candidate_lookup_paths (.ok []) (.ok []) [] [] (fun _ => routeW)
    0 0 "PET" 2 none).2.2.2 rfl

/- ============================== claim C10 ================================ -/

/-- C10: the ranking entry point absorbs dependency failures — when both
store queries fail the result is the empty list, not an error — and a
candidate whose scoring raises (modelled: a missing location key, turned
into `None` by the scorer's own handler) is skipped without affecting how
the remaining candidates are scored, sorted and returned. -/
theorem rank_error_isolation
    (routeOf : Recycler → RouteRes) (user_lat user_lon : ℝ) (material : String)
    (weight_kg : ℚ) (ward : Option String) (allActive : Except Unit (List Recycler))
    (l1 l2 : List Recycler) (bad : Recycler) :
    rank_recyclers (.error ()) (.error ()) routeOf user_lat user_lon material weight_kg ward = [] ∧
    (score_recycler (routeOf bad) bad material weight_kg ward = none →
     (l1 ++ bad :: l2).length ≤ 50 →
     rank_recyclers (.ok (l1 ++ bad :: l2)) allActive routeOf user_lat user_lon material weight_kg ward =
       rank_recyclers (.ok (l1 ++ l2)) allActive routeOf user_lat user_lon material weight_kg ward) := by
  constructor
  · rfl
  · intro hbad hlen
    have hlen2 : (l1 ++ l2).length ≤ 50 := by
      simp only [List.length_append, List.length_cons] at hlen ⊢
      omega
    have hf : (fun r => score_recycler (routeOf r) r material weight_kg ward) bad = none := hbad
    have hscored : scoredList routeOf (l1 ++ bad :: l2) material weight_kg ward =
        scoredList routeOf (l1 ++ l2) material weight_kg ward := by
      unfold scoredList
      rw [List.filterMap_append, List.filterMap_append,
        @List.filterMap_cons_none _ _ (fun r => score_recycler (routeOf r) r material weight_kg ward) bad l2 hf]
    unfold rank_recyclers candidatesOf
    simp only [List.take_of_length_le hlen, List.take_of_length_le hlen2]
    by_cases h2 : l1 ++ l2 = []
    · have h1 : l1 = [] ∧ l2 = [] := by
        rcases List.append_eq_nil.mp h2 with ⟨ha, hb⟩
        exact ⟨ha, hb⟩
      obtain ⟨rfl, rfl⟩ := h1
      simp only [List.nil_append, if_pos rfl]
      have : scoredList routeOf [bad] material weight_kg ward = [] := by
        unfold scoredList
        rw [@List.filterMap_cons_none _ _ (fun r => score_recycler (routeOf r) r material weight_kg ward) bad [] hf,
          List.filterMap_nil]
      simp [this]
    · have h1 : l1 ++ bad :: l2 ≠ [] := by
        cases l1 <;> simp
      rw [if_neg h1, if_neg h2, hscored]

/-- Witness for C10: a candidate without a location key is skipped while
the remaining candidate is still ranked. -/
theorem rank_error_isolation_witness :
    rank_recyclers (.ok [recFlat, recNoLoc]) (.ok []) (fun _ => routeW) 0 0 "PET" 2 none =
      rank_recyclers (.ok [recFlat]) (.ok []) (fun _ => routeW) 0 0 "PET" 2 none :=
  (rank_error_isolation (fun _ => routeW) 0 0 "PET" 2 none (.ok [])
    [recFlat] [] recNoLoc).2 rfl (by norm_num)

/- ============================== claim C7 ================================= -/

/-- C7: every document returned by personal-tier retrieval — directly or as
the personal half of a dual retrieval — is owned by the requesting
identity, because the store join filters on the requester's user
identifier; embeddings of other users present in the shared personal index
cannot surface. -/
theorem personal_retrieval_ownership
    (store : List PersonalDoc) (results : List (String × ℚ)) (user_id : String)
    (top_k : ℕ) (doc_type : Option String)
    (gstore : List GlobalDoc) (gresults : List (String × ℚ))
    (global_top_k personal_top_k : ℕ) (category city : Option String) :
    (∀ o ∈ retrieve_personal store results user_id top_k doc_type,
      ∃ d ∈ store, d.id = o.id ∧ d.user_id = user_id) ∧
    (∀ o ∈ (dual_retrieve gstore store gresults results user_id
        global_top_k personal_top_k category city).2,
      ∃ d ∈ store, d.id = o.id ∧ d.user_id = user_id) := by
  have main : ∀ (tk : ℕ) (dt : Option String),
      ∀ o ∈ retrieve_personal store results user_id tk dt,
      ∃ d ∈ store, d.id = o.id ∧ d.user_id = user_id := by
    intro tk dt o ho
    unfold retrieve_personal at ho
    have ho2 := List.mem_of_mem_take ho
    rw [List.mem_mergeSort, List.mem_filterMap] at ho2
    obtain ⟨d, hd, hmap⟩ := ho2
    have hd2 := List.mem_filter.mp (List.mem_of_mem_take hd)
    obtain ⟨hdstore, hpred⟩ := hd2
    unfold personalFilter at hpred
    simp only [Bool.and_eq_true, beq_iff_eq] at hpred
    cases hs : scoreMapGet results d.id with
    | none => rw [hs] at hmap; exact absurd hmap (by simp)
    | some s =>
      rw [hs] at hmap
      simp only [Option.map_some'] at hmap
      injection hmap with hmap
      exact ⟨d, hdstore, by rw [← hmap], hpred.1.2⟩
  exact ⟨main top_k doc_type, main personal_top_k none⟩

/-- Witness for C7: a one-document personal store with one index hit
returns that document, whose stored owner is the requester. -/
theorem personal_retrieval_ownership_witness :
    ∃ d ∈ [pdocW], d.id = "d1" ∧ d.user_id = "u1" := by
  have hmem : ({ id := "d1", content := "note", doc_type := "scan", score := 1 } :
      RetrievedPersonalDoc) ∈ retrieve_personal [pdocW] [("d1", (1 : ℚ))] "u1" 3 none := by
    simp [retrieve_personal, personalFilter, pdocW, scoreMapGet]
  exact (personal_retrieval_ownership [pdocW] [("d1", (1 : ℚ))] "u1" 3 none
    [] [] 5 3 none none).1 _ hmem

/- ==================== helper lemmas for the routing adapter ============== -/

theorem math_atan2_nonneg (y x : ℝ) (hy : 0 ≤ y) : 0 ≤ math_atan2 y x := by
  have harctan : ∀ t : ℝ, 0 ≤ t → 0 ≤ Real.arctan t := by
    intro t ht
    have h := Real.arctan_strictMono.monotone ht
    rwa [Real.arctan_zero] at h
  unfold math_atan2
  by_cases hx : 0 < x
  · rw [if_pos hx]
    exact harctan _ (div_nonneg hy hx.le)
  · rw [if_neg hx]
    by_cases hx2 : x < 0
    · rw [if_pos hx2, if_pos hy]
      have h := Real.neg_pi_div_two_lt_arctan (y / x)
      have hpi := Real.pi_pos
      linarith
    · rw [if_neg hx2]
      by_cases hy2 : 0 < y
      · rw [if_pos hy2]
        have hpi := Real.pi_pos
        linarith
      · rw [if_neg hy2, if_neg (not_lt.mpr hy)]

theorem haversine_distance_eq (lat1 lon1 lat2 lon2 : ℝ) :
    haversine_distance lat1 lon1 lat2 lon2 =
      6371 * (2 * math_atan2
        (Real.sqrt (Real.sin (math_radians (lat2 - lat1) / 2) ^ 2 +
          Real.cos (math_radians lat1) * Real.cos (math_radians lat2) *
          Real.sin (math_radians (lon2 - lon1) / 2) ^ 2))
        (Real.sqrt (1 - (Real.sin (math_radians (lat2 - lat1) / 2) ^ 2 +
          Real.cos (math_radians lat1) * Real.cos (math_radians lat2) *
          Real.sin (math_radians (lon2 - lon1) / 2) ^ 2)))) := rfl

theorem haversine_nonneg (lat1 lon1 lat2 lon2 : ℝ) :
    0 ≤ haversine_distance lat1 lon1 lat2 lon2 := by
  rw [haversine_distance_eq]
  have h := math_atan2_nonneg
    (Real.sqrt (Real.sin (math_radians (lat2 - lat1) / 2) ^ 2 +
      Real.cos (math_radians lat1) * Real.cos (math_radians lat2) *
      Real.sin (math_radians (lon2 - lon1) / 2) ^ 2))
    (Real.sqrt (1 - (Real.sin (math_radians (lat2 - lat1) / 2) ^ 2 +
      Real.cos (math_radians lat1) * Real.cos (math_radians lat2) *
      Real.sin (math_radians (lon2 - lon1) / 2) ^ 2)))
    (Real.sqrt_nonneg _)
  nlinarith

theorem haversine_self (lat lon : ℝ) : haversine_distance lat lon lat lon = 0 := by
  rw [haversine_distance_eq]
  have h0 : math_radians (lat - lat) = 0 := by unfold math_radians; ring
  have h0' : math_radians (lon - lon) = 0 := by unfold math_radians; ring
  rw [h0, h0']
  have ha : Real.sin ((0 : ℝ) / 2) ^ 2 +
      Real.cos (math_radians lat) * Real.cos (math_radians lat) *
      Real.sin ((0 : ℝ) / 2) ^ 2 = 0 := by
    norm_num
  rw [ha, Real.sqrt_zero]
  have h10 : (1 : ℝ) - 0 = 1 := by norm_num
  rw [h10, Real.sqrt_one]
  have h1 : math_atan2 0 1 = 0 := by
    unfold math_atan2
    rw [if_pos one_pos]
    norm_num [Real.arctan_zero]
  rw [h1]
  ring

theorem haversine_symm (lat1 lon1 lat2 lon2 : ℝ) :
    haversine_distance lat1 lon1 lat2 lon2 = haversine_distance lat2 lon2 lat1 lon1 := by
  rw [haversine_distance_eq, haversine_distance_eq]
  have h1 : Real.sin (math_radians (lat1 - lat2) / 2) =
      -Real.sin (math_radians (lat2 - lat1) / 2) := by
    have h : math_radians (lat1 - lat2) / 2 = -(math_radians (lat2 - lat1) / 2) := by
      unfold math_radians; ring
    rw [h, Real.sin_neg]
  have h2 : Real.sin (math_radians (lon1 - lon2) / 2) =
      -Real.sin (math_radians (lon2 - lon1) / 2) := by
    have h : math_radians (lon1 - lon2) / 2 = -(math_radians (lon2 - lon1) / 2) := by
      unfold math_radians; ring
    rw [h, Real.sin_neg]
  rw [h1, h2]
  ring_nf

theorem roundHalfEven_nonneg (x : ℝ) (hx : 0 ≤ x) : 0 ≤ roundHalfEven x := by
  unfold roundHalfEven
  have hf : (0 : ℤ) ≤ ⌊x⌋ := Int.floor_nonneg.mpr hx
  split
  · exact hf
  · split
    · omega
    · split
      · exact hf
      · omega

theorem pyRound_nonneg (n : ℕ) (x : ℝ) (hx : 0 ≤ x) : 0 ≤ pyRound n x := by
  unfold pyRound
  apply div_nonneg
  · exact_mod_cast roundHalfEven_nonneg _ (by positivity)
  · positivity

theorem pyRound_zero (n : ℕ) : pyRound n 0 = 0 := by
  unfold pyRound roundHalfEven
  norm_num

/- ============================== claim C3 ================================= -/

theorem haversine_route_def (lat1 lon1 lat2 lon2 : ℝ) :
    haversine_route lat1 lon1 lat2 lon2 =
      { distance_m := haversine_distance lat1 lon1 lat2 lon2 * 1000
        duration_s := haversine_distance lat1 lon1 lat2 lon2 / 30 * 3600
        distance_km := pyRound 2 (haversine_distance lat1 lon1 lat2 lon2)
        duration_min := pyRound 1 (haversine_distance lat1 lon1 lat2 lon2 / 30 * 3600 / 60) } :=
  rfl

/-- C3: for every unavailable behaviour of the routing service — an
exception (covering non-2xx), an empty body, a malformed body, a non-Ok
status code, or an absent route list — the adapter returns exactly the
haversine fallback estimate, whose distance and duration fields are all
non-negative and whose duration in seconds is (distance_km / 30) * 3600
for the unrounded haversine distance. -/
theorem get_route_total_fallback (start_lon start_lat end_lon end_lat : ℝ) :
    get_route start_lon start_lat end_lon end_lat .exn =
      haversine_route start_lat start_lon end_lat end_lon ∧
    get_route start_lon start_lat end_lon end_lat .emptyBody =
      haversine_route start_lat start_lon end_lat end_lon ∧
    get_route start_lon start_lat end_lon end_lat .badJson =
      haversine_route start_lat start_lon end_lat end_lon ∧
    (∀ code routes, code ≠ some "Ok" →
      get_route start_lon start_lat end_lon end_lat (.payload code routes) =
        haversine_route start_lat start_lon end_lat end_lon) ∧
    (∀ code, get_route start_lon start_lat end_lon end_lat (.payload code []) =
      haversine_route start_lat start_lon end_lat end_lon) ∧
    0 ≤ (haversine_route start_lat start_lon end_lat end_lon).distance_m ∧
    0 ≤ (haversine_route start_lat start_lon end_lat end_lon).duration_s ∧
    0 ≤ (haversine_route start_lat start_lon end_lat end_lon).distance_km ∧
    0 ≤ (haversine_route start_lat start_lon end_lat end_lon).duration_min ∧
    (haversine_route start_lat start_lon end_lat end_lon).duration_s =
      haversine_distance start_lat start_lon end_lat end_lon / 30 * 3600 := by
  have hd := haversine_nonneg start_lat start_lon end_lat end_lon
  refine ⟨rfl, rfl, rfl, ?_, fun code => rfl, ?_, ?_, ?_, ?_, rfl⟩
  · intro code routes hcode
    cases routes with
    | nil => rfl
    | cons r rest =>
      unfold get_route
      simp [hcode]
  · rw [haversine_route_def]
    exact mul_nonneg hd (by norm_num)
  · rw [haversine_route_def]
    positivity
  · rw [haversine_route_def]
    exact pyRound_nonneg 2 _ hd
  · rw [haversine_route_def]
    exact pyRound_nonneg 1 _ (by positivity)

/-- Witness for C3: a parsed payload with a non-Ok status code falls back
to the haversine estimate. -/
theorem get_route_total_fallback_witness :
    get_route 0 0 1 1 (.payload (some "NoRoute") []) = haversine_route 0 0 1 1 :=
  (get_route_total_fallback 0 0 1 1).2.2.2.1 (some "NoRoute") [] (by simp)

/- ============================== claim C4 ================================= -/

/-- C4: under the fallback path the route distance from a point to itself
is zero (both in metres and in rounded kilometres), and the fallback
distance is symmetric in its two endpoints. -/
theorem haversine_fallback_zero_and_symm (lat lon lat1 lon1 lat2 lon2 : ℝ) :
    (get_route lon lat lon lat .exn).distance_m = 0 ∧
    (get_route lon lat lon lat .exn).distance_km = 0 ∧
    (get_route lon1 lat1 lon2 lat2 .exn).distance_m =
      (get_route lon2 lat2 lon1 lat1 .exn).distance_m ∧
    (get_route lon1 lat1 lon2 lat2 .exn).distance_km =
      (get_route lon2 lat2 lon1 lat1 .exn).distance_km := by
  have hself := haversine_self lat lon
  have hsymm := haversine_symm lat1 lon1 lat2 lon2
  have he : ∀ (a b c d : ℝ), get_route a b c d .exn = haversine_route b a d c :=
    fun a b c d => rfl
  refine ⟨?_, ?_, ?_, ?_⟩
  · rw [he, haversine_route_def]
    simp [hself]
  · rw [he, haversine_route_def]
    simp only [hself]
    exact pyRound_zero 2
  · rw [he, he, haversine_route_def, haversine_route_def]
    simp [hsymm]
  · rw [he, he, haversine_route_def, haversine_route_def]
    simp [hsymm]
